import Mathlib

/-!
Verification development for the gytmdl-gui build-automation scripts.

The Python sources under `scripts/` and `build-scripts/` are shallowly
embedded: pure computations become Lean functions, subprocess calls and
the file system become explicit oracle parameters, and machine bytes are
`Nat` values reduced modulo 256 / 2^32 where the code overflows.
-/

namespace Gytmdl

/-! ## SHA-256 (model of Python's `hashlib.sha256`)

The scripts hash bytes with `hashlib.sha256`, feeding it either the whole
byte string at once or 4096-byte chunks via `update`.  We embed the hash
itself (padding, schedule, compression over `Nat` mod 2^32) and model the
`hashlib` object as the list of bytes accumulated so far: `update`
appends, `hexdigest` hashes the accumulated bytes. -/

namespace Sha

/-- Reduce to a 32-bit word, as Python's fixed-width hash arithmetic. -/
def w32 (n : Nat) : Nat := n % 4294967296

/-- Rotate a 32-bit word right by `n` bits. -/
def rotr (n x : Nat) : Nat := w32 (x / 2 ^ n + x % 2 ^ n * 2 ^ (32 - n))

/-- Logical right shift. -/
def shr (n x : Nat) : Nat := x / 2 ^ n

/-- Bitwise complement within 32 bits (operand first reduced mod 2^32). -/
def bnot (x : Nat) : Nat := 4294967295 - w32 x

def bigSigma0 (x : Nat) : Nat := rotr 2 x ^^^ rotr 13 x ^^^ rotr 22 x

def bigSigma1 (x : Nat) : Nat := rotr 6 x ^^^ rotr 11 x ^^^ rotr 25 x

def smallSigma0 (x : Nat) : Nat := rotr 7 x ^^^ rotr 18 x ^^^ shr 3 x

def smallSigma1 (x : Nat) : Nat := rotr 17 x ^^^ rotr 19 x ^^^ shr 10 x

def ch (x y z : Nat) : Nat := (x &&& y) ^^^ (bnot x &&& z)

def maj (x y z : Nat) : Nat := (x &&& y) ^^^ (x &&& z) ^^^ (y &&& z)

/-- The 64 SHA-256 round constants of FIPS 180-4, written in decimal. -/
def roundK : List Nat :=
  [1116352408, 1899447441, 3049323471, 3921009573,
   961987163, 1508970993, 2453635748, 2870763221,
   3624381080, 310598401, 607225278, 1426881987,
   1925078388, 2162078206, 2614888103, 3248222580,
   3835390401, 4022224774, 264347078, 604807628,
   770255983, 1249150122, 1555081692, 1996064986,
   2554220882, 2821834349, 2952996808, 3210313671,
   3336571891, 3584528711, 113926993, 338241895,
   666307205, 773529912, 1294757372, 1396182291,
   1695183700, 1986661051, 2177026350, 2456956037,
   2730485921, 2820302411, 3259730800, 3345764771,
   3516065817, 3600352804, 4094571909, 275423344,
   430227734, 506948616, 659060556, 883997877,
   958139571, 1322822218, 1537002063, 1747873779,
   1955562222, 2024104815, 2227730452, 2361852424,
   2428436474, 2756734187, 3204031479, 3329325298]

/-- The eight-word working state / digest of SHA-256. -/
structure Hash8 where
  a : Nat
  b : Nat
  c : Nat
  d : Nat
  e : Nat
  f : Nat
  g : Nat
  h : Nat
deriving Repr, DecidableEq

/-- The SHA-256 initial hash value of FIPS 180-4, written in decimal. -/
def initH : Hash8 :=
  ⟨1779033703, 3144134277, 1013904242, 2773480762,
   1359893119, 2600822924, 528734635, 1541459225⟩

/-- Big-endian 8-byte encoding of a (64-bit) length value. -/
def lenBytes64 (n : Nat) : List Nat :=
  [n / 2 ^ 56 % 256, n / 2 ^ 48 % 256, n / 2 ^ 40 % 256, n / 2 ^ 32 % 256,
   n / 2 ^ 24 % 256, n / 2 ^ 16 % 256, n / 2 ^ 8 % 256, n % 256]

/-- SHA-256 padding: append `0x80`, zeros to 56 mod 64, then the bit length. -/
def padMessage (msg : List Nat) : List Nat :=
  let padZeros := (119 - msg.length % 64) % 64
  msg ++ [128] ++ List.replicate padZeros 0 ++ lenBytes64 (8 * msg.length)

/-- Group bytes four at a time into big-endian 32-bit words. -/
def bytesToWords : List Nat → List Nat
  | b0 :: b1 :: b2 :: b3 :: rest =>
    (b0 * 2 ^ 24 + b1 * 2 ^ 16 + b2 * 2 ^ 8 + b3) :: bytesToWords rest
  | _ => []

/-- Extend the 16 block words to the 64-entry message schedule. -/
def extendWords (ws : List Nat) : List Nat :=
  ((List.range 48).foldl
    (fun (w : Array Nat) _ =>
      w.push (w32 (smallSigma1 (w.getD (w.size - 2) 0) + w.getD (w.size - 7) 0 +
        smallSigma0 (w.getD (w.size - 15) 0) + w.getD (w.size - 16) 0)))
    ws.toArray).toList

/-- One SHA-256 round. -/
def round (st : Hash8) (kw : Nat × Nat) : Hash8 :=
  let t1 := w32 (st.h + bigSigma1 st.e + ch st.e st.f st.g + kw.1 + kw.2)
  let t2 := w32 (bigSigma0 st.a + maj st.a st.b st.c)
  ⟨w32 (t1 + t2), st.a, st.b, st.c, w32 (st.d + t1), st.e, st.f, st.g⟩

/-- Compress one 64-byte block into the running hash. -/
def compressBlock (h : Hash8) (block : List Nat) : Hash8 :=
  let ws := extendWords (bytesToWords block)
  let f := (roundK.zip ws).foldl round h
  ⟨w32 (h.a + f.a), w32 (h.b + f.b), w32 (h.c + f.c), w32 (h.d + f.d),
   w32 (h.e + f.e), w32 (h.f + f.f), w32 (h.g + f.g), w32 (h.h + f.h)⟩

/-- Split a list into chunks of `m + 1` elements (the successor argument
makes the recursion obviously terminating). -/
def chunksBy (m : Nat) : List α → List (List α)
  | [] => []
  | x :: xs => (x :: xs).take (m + 1) :: chunksBy m (xs.drop m)
termination_by l => l.length
decreasing_by
  simp only [List.length_cons, List.length_drop]
  omega

/-- The SHA-256 digest of a byte list, as the eight final words. -/
def sha256Words (msg : List Nat) : Hash8 :=
  (chunksBy 63 (padMessage msg)).foldl compressBlock initH

/-- Big-endian bytes of a 32-bit word. -/
def wordBytes (w : Nat) : List Nat :=
  [w / 2 ^ 24 % 256, w / 2 ^ 16 % 256, w / 2 ^ 8 % 256, w % 256]

/-- The 32 digest bytes. -/
def digestBytes (h : Hash8) : List Nat :=
  wordBytes h.a ++ wordBytes h.b ++ wordBytes h.c ++ wordBytes h.d ++
  wordBytes h.e ++ wordBytes h.f ++ wordBytes h.g ++ wordBytes h.h

/-- The sixteen lowercase hexadecimal digits. -/
def hexDigitChars : List Char := "0123456789abcdef".toList

/-- Lowercase hex digit for `k % 16`. -/
def hexDigitChar (k : Nat) : Char := hexDigitChars.getD (k % 16) '0'

/-- Lowercase hex rendering of a byte list, two digits per byte. -/
def hexOfBytes (bs : List Nat) : String :=
  String.mk (bs.flatMap fun b => [hexDigitChar (b / 16), hexDigitChar b])

/-- Model of a `hashlib.sha256()` object: the bytes fed to it so far. -/
abbrev Sha256State := List Nat

/-- Model of `hashlib.sha256()`: a fresh object has seen no bytes. -/
def sha256_new : Sha256State := []

/-- Model of `sha256.update(chunk)`: the object accumulates the chunk. -/
def sha256_update (s : Sha256State) (chunk : List Nat) : Sha256State := s ++ chunk

/-- Model of `sha256.hexdigest()`: hash all accumulated bytes, in hex. -/
def sha256_hexdigest (s : Sha256State) : String :=
  hexOfBytes (digestBytes (sha256Words s))

end Sha

/-! ## build-scripts/build-sidecars.py : `SidecarBuilder` -/

namespace SidecarBuilder

/-- The platform record returned by `SidecarBuilder.get_platform_info`
(the packaging pipeline's `_get_platform_info` additionally carries the
installer format list, modelled separately below). -/
structure PlatformInfo where
  os : String
  arch : String
  target : String
  extension : String
deriving Repr, DecidableEq

/-- Embedding of `SidecarBuilder.get_platform_info`.  Inputs are the host
values the Python reads: `platform.system().lower()`,
`platform.machine().lower()`, and whether `"64" in str(sys.maxsize)`.
The `raise ValueError` branch becomes `Except.error`. -/
def get_platform_info (system machine : String) (is64 : Bool) :
    Except String PlatformInfo :=
  if system == "windows" then
    if is64 then
      .ok ⟨"windows", "x86_64", "x86_64-pc-windows-msvc", ".exe"⟩
    else
      .ok ⟨"windows", "i686", "i686-pc-windows-msvc", ".exe"⟩
  else if system == "darwin" then
    if machine == "arm64" then
      .ok ⟨"macos", "aarch64", "aarch64-apple-darwin", ""⟩
    else
      .ok ⟨"macos", "x86_64", "x86_64-apple-darwin", ""⟩
  else if system == "linux" then
    if machine == "x86_64" then
      .ok ⟨"linux", "x86_64", "x86_64-unknown-linux-gnu", ""⟩
    else if machine == "aarch64" then
      .ok ⟨"linux", "aarch64", "aarch64-unknown-linux-gnu", ""⟩
    else
      .ok ⟨"linux", "unknown", "unknown-linux-gnu", ""⟩
  else
    .error ("Unsupported platform: " ++ system)

/-- The sidecar binary name built in `SidecarBuilder.build_binary`:
`f"gytmdl-{platform_info['target']}{platform_info['extension']}"`. -/
def binary_name (info : PlatformInfo) : String :=
  "gytmdl-" ++ info.target ++ info.extension

/-- Outcome of one `subprocess.run` call as the scripts observe it. -/
inductive RunOutcome where
  | completed (returncode : Int) (stdout : String) (stderr : String)
  | timeoutExpired
  | osError (msg : String)
deriving Repr, DecidableEq

/-- Embedding of `SidecarBuilder.validate_binary`: run the binary with
`--version` under `timeout=30`; return code 0 means success, a
`TimeoutExpired` or any other exception is caught and yields `false`.
`run args timeoutSeconds` is the subprocess oracle. -/
def validate_binary (run : List String → Option Nat → RunOutcome)
    (binaryPath : String) : Bool :=
  match run [binaryPath, "--version"] (some 30) with
  | .completed rc _ _ => rc == 0
  | .timeoutExpired => false
  | .osError _ => false

/-- Embedding of `SidecarBuilder.calculate_checksum`: feed the file to a
fresh `hashlib.sha256()` in 4096-byte chunks, then take `hexdigest()`. -/
def calculate_checksum (fileBytes : List Nat) : String :=
  Sha.sha256_hexdigest
    ((Sha.chunksBy 4095 fileBytes).foldl Sha.sha256_update Sha.sha256_new)

/-- A single-pass reference digest, `hashlib.sha256(data).hexdigest()`,
as the mock-sidecar script computes it in one call. -/
def reference_sha256_hex (fileBytes : List Nat) : String :=
  Sha.sha256_hexdigest (Sha.sha256_update Sha.sha256_new fileBytes)

end SidecarBuilder

/-! ## scripts/build-and-package.py : `PackagingPipeline` -/

/-- Nested `code_signing` block of the build configuration JSON.  A key
absent in the JSON is modelled by its `.get(..., default)` value. -/
structure CodeSigningConfig where
  enabled : Bool
  notarize : Bool
deriving Repr, DecidableEq

/-- The build configuration dictionary (the recognized top-level keys). -/
structure BuildConfig where
  release : Bool
  code_signing : CodeSigningConfig
  target : Option String
deriving Repr, DecidableEq

/-- The default configuration literal returned by `load_config` when the
file does not exist (`release: True`, `code_signing.enabled: False`). -/
def default_config : BuildConfig :=
  { release := true
    code_signing := { enabled := false, notarize := false }
    target := none }

/-- Embedding of `load_config`: the file system is modelled by an
`Option BuildConfig`, `none` meaning the path does not exist, `some cfg`
meaning the path exists and parses to `cfg`. -/
def load_config (fileOnDisk : Option BuildConfig) : BuildConfig :=
  match fileOnDisk with
  | some cfg => cfg
  | none => default_config

namespace PackagingPipeline

/-- Outcome of probing one tool with `subprocess.run([tool, "--version"],
capture_output=True, check=True)`: success, `CalledProcessError`
(non-zero exit), or `FileNotFoundError` (executable absent). -/
inductive ProbeOutcome where
  | success
  | calledProcessError
  | fileNotFoundError
deriving Repr, DecidableEq

/-- The fixed `required_tools` mapping's keys, in iteration order. -/
def required_tools : List String := ["node", "npm", "cargo", "python3"]

/-- The `missing_tools` accumulation loop of `check_dependencies`: each
probe failure appends the tool and the loop continues with the rest. -/
def missingTools (probe : String → ProbeOutcome) : List String → List String
  | [] => []
  | t :: ts =>
    match probe t with
    | .success => missingTools probe ts
    | .calledProcessError => t :: missingTools probe ts
    | .fileNotFoundError => t :: missingTools probe ts

/-- Embedding of `PackagingPipeline.check_dependencies` over an arbitrary
tool list: returns the pass/fail flag together with `missing_tools`.
(The platform-specific `signtool`/`codesign` probes only print warnings
and never touch `missing_tools` or the return value, so they are not part
of the result.) -/
def check_dependencies (probe : String → ProbeOutcome) (tools : List String) :
    Bool × List String :=
  let missing := missingTools probe tools
  (missing.isEmpty, missing)

/-- One candidate installer artifact handed to `generate_checksums`:
its file name, whether the path exists on disk, and its bytes. -/
structure InstallerFile where
  name : String
  existsOnDisk : Bool
  content : List Nat
deriving Repr, DecidableEq

/-- Embedding of `PackagingPipeline.generate_checksums` as the list of
lines written to `checksums.txt`: for each listed file that exists, one
line `f"{checksum}  {file_path.name}"` whose checksum is the chunked
SHA-256 hex digest; files that do not exist produce nothing. -/
def generate_checksums : List InstallerFile → List String
  | [] => []
  | f :: fs =>
    if f.existsOnDisk then
      (Sha.sha256_hexdigest
          ((Sha.chunksBy 4095 f.content).foldl Sha.sha256_update Sha.sha256_new)
        ++ "  " ++ f.name) :: generate_checksums fs
    else
      generate_checksums fs

/-- Result of a platform-specific signing helper
(`_sign_windows_binaries` / `_sign_macos_binaries`): whether it
succeeded and which signing tools it invoked. -/
structure SignOutcome where
  success : Bool
  toolsInvoked : List String
deriving Repr, DecidableEq

/-- Embedding of `PackagingPipeline.sign_binaries`: signing disabled or a
non-Windows, non-macOS host short-circuits to success with no tool
invocation; otherwise the platform helper's outcome is returned. -/
def sign_binaries (cfg : BuildConfig) (osName : String)
    (winSign macSign : SignOutcome) : SignOutcome :=
  if !cfg.code_signing.enabled then ⟨true, []⟩
  else if osName == "windows" then winSign
  else if osName == "macos" then macSign
  else ⟨true, []⟩

/-- The `cargo tauri build` command assembled by `build_tauri_app`. -/
def build_tauri_cmd (cfg : BuildConfig) : List String :=
  ["cargo", "tauri", "build"]
    ++ (match cfg.target with
        | some t => ["--target", t]
        | none => [])
    ++ (if cfg.release then ["--release"] else [])

/-- The pass/fail outcome of each stage of one pipeline run, plus the
installer paths `create_installers` would return. -/
structure StageOutcomes where
  depsOk : Bool
  sidecarOk : Bool
  frontendOk : Bool
  tauriOk : Bool
  signOk : Bool
  installers : List String
deriving Repr, DecidableEq

/-- What a finished `run_full_pipeline` call reports: the returned
boolean, the name of the failing step (if any), and the stages it
actually invoked, in invocation order. -/
structure PipelineResult where
  success : Bool
  failedStep : Option String
  invoked : List String
deriving Repr, DecidableEq

/-- The `steps` list of `run_full_pipeline`, paired with each step's
outcome for this run. -/
def step_list (o : StageOutcomes) : List (String × Bool) :=
  [("Check dependencies", o.depsOk),
   ("Build sidecar binaries", o.sidecarOk),
   ("Build frontend", o.frontendOk),
   ("Build Tauri app", o.tauriOk),
   ("Sign binaries", o.signOk)]

/-- The `for step_name, step_func in steps` loop: run steps in order,
stop at the first failure, report its name. -/
def runSteps : List (String × Bool) → List String × Option String
  | [] => ([], none)
  | (name, ok) :: rest =>
    if ok then
      let r := runSteps rest
      (name :: r.1, r.2)
    else
      ([name], some name)

/-- All stage names of the pipeline in their fixed source order. -/
def pipelineStageOrder : List String :=
  ["Check dependencies", "Build sidecar binaries", "Build frontend",
   "Build Tauri app", "Sign binaries", "Create installers",
   "Generate checksums"]

/-- Embedding of `PackagingPipeline.run_full_pipeline`: the five boolean
steps run in order with early return on the first failure; afterwards
`create_installers` always runs, and `generate_checksums` runs only when
it produced at least one installer; the run then returns `True` (an
empty installer list only prints a warning). -/
def run_full_pipeline (o : StageOutcomes) : PipelineResult :=
  match runSteps (step_list o) with
  | (invoked, some failedName) => ⟨false, some failedName, invoked⟩
  | (invoked, none) =>
    if o.installers.isEmpty then
      ⟨true, none, invoked ++ ["Create installers"]⟩
    else
      ⟨true, none, invoked ++ ["Create installers", "Generate checksums"]⟩

/-- The index of the first failing boolean stage of a run, if any. -/
def idxOfFalse : List Bool → Option Nat
  | [] => none
  | b :: bs => if b then (idxOfFalse bs).map (· + 1) else some 0

/-- The five pass/fail stage results in pipeline order. -/
def boolStageResults (o : StageOutcomes) : List Bool :=
  [o.depsOk, o.sidecarOk, o.frontendOk, o.tauriOk, o.signOk]

/-- Index of the first failing stage of this run, if any stage fails. -/
def firstFailIdx (o : StageOutcomes) : Option Nat :=
  idxOfFalse (boolStageResults o)

end PackagingPipeline

/-! ## scripts/create-mock-sidecars.py -/

namespace MockSidecars

/-- One entry of the script's `platforms` table. -/
structure MockPlatform where
  name : String
  target : String
  extension : String
  os : String
  arch : String
deriving Repr, DecidableEq

/-- The six-entry `platforms` table of `create_mock_sidecars`. -/
def platforms : List MockPlatform :=
  [⟨"Windows x64", "x86_64-pc-windows-msvc", ".exe", "windows", "x86_64"⟩,
   ⟨"Windows x86", "i686-pc-windows-msvc", ".exe", "windows", "i686"⟩,
   ⟨"macOS Intel", "x86_64-apple-darwin", "", "macos", "x86_64"⟩,
   ⟨"macOS Apple Silicon", "aarch64-apple-darwin", "", "macos", "aarch64"⟩,
   ⟨"Linux x64", "x86_64-unknown-linux-gnu", "", "linux", "x86_64"⟩,
   ⟨"Linux ARM64", "aarch64-unknown-linux-gnu", "", "linux", "aarch64"⟩]

/-- What the loop body writes for one platform: the placeholder file, its
manifest, and the manifest flags / script exit code that depend on
whether the platform equals the current target. -/
structure MockArtifact where
  binaryName : String
  manifestName : String
  target : String
  is_mock : Bool
  isCurrentPlatform : Bool
  scriptExitCode : Nat
deriving Repr, DecidableEq

/-- Embedding of the `for platform_info in platforms` loop of
`create_mock_sidecars`: every platform in the table gets exactly one
placeholder file and one manifest; the manifest always carries
`is_mock: True`, and `is_current_platform` (and an exit-0, version-aware
script body) exactly when the platform's target equals the current
target.  `currentTarget` is `none` for an unrecognized host OS. -/
def create_mock_sidecars (currentTarget : Option String) : List MockArtifact :=
  platforms.map fun p =>
    { binaryName := "gytmdl-" ++ p.target ++ p.extension
      manifestName := "gytmdl-" ++ p.target ++ p.extension ++ ".json"
      target := p.target
      is_mock := true
      isCurrentPlatform := some p.target == currentTarget
      scriptExitCode := if some p.target == currentTarget then 0 else 1 }

end MockSidecars

/-- Modelled from the spec: the target triples of the fixed reference
table of supported (OS, architecture) pairs that `PlatformResolver` is
said to range over (the six real triples the scripts name). -/
def spec_reference_triples : List String :=
  ["x86_64-pc-windows-msvc", "i686-pc-windows-msvc",
   "aarch64-apple-darwin", "x86_64-apple-darwin",
   "x86_64-unknown-linux-gnu", "aarch64-unknown-linux-gnu"]

/-! ## Helper lemmas -/

namespace Sha

theorem chunksBy_foldl_update (m : Nat) :
    ∀ (l acc : List Nat),
      (chunksBy m l).foldl sha256_update acc = acc ++ l := by
  have key : ∀ (n : Nat) (l acc : List Nat), l.length ≤ n →
      (chunksBy m l).foldl sha256_update acc = acc ++ l := by
    intro n
    induction n with
    | zero =>
      intro l acc h
      have hl : l = [] := List.eq_nil_of_length_eq_zero (Nat.le_zero.mp h)
      subst hl
      simp [chunksBy]
    | succ n ih =>
      intro l acc h
      match l with
      | [] => simp [chunksBy]
      | x :: xs =>
        rw [chunksBy]
        simp only [List.foldl_cons]
        rw [ih (xs.drop m) (sha256_update acc ((x :: xs).take (m + 1)))
          (by simp only [List.length_drop]
              simp only [List.length_cons] at h
              omega)]
        show acc ++ (x :: xs).take (m + 1) ++ xs.drop m = acc ++ (x :: xs)
        rw [List.append_assoc]
        congr 1
        have hdrop : xs.drop m = (x :: xs).drop (m + 1) := by
          simp [List.drop_succ_cons]
        rw [hdrop, List.take_append_drop]
  intro l acc
  exact key l.length l acc (Nat.le_refl _)

theorem length_hexCharList (bs : List Nat) :
    (bs.flatMap fun b => [hexDigitChar (b / 16), hexDigitChar b]).length =
      2 * bs.length := by
  induction bs with
  | nil => rfl
  | cons b bs ih =>
    simp only [List.flatMap_cons, List.length_append, List.length_cons,
      List.length_nil, List.length_cons, ih]
    omega

theorem length_digestBytes (h : Hash8) : (digestBytes h).length = 32 := rfl

theorem length_sha256_hexdigest (s : Sha256State) :
    (sha256_hexdigest s).length = 64 := by
  show (hexOfBytes (digestBytes (sha256Words s))).length = 64
  show ((digestBytes (sha256Words s)).flatMap
    fun b => [hexDigitChar (b / 16), hexDigitChar b]).length = 64
  rw [length_hexCharList, length_digestBytes]

theorem getD_eq_or_mem {α : Type} :
    ∀ (l : List α) (n : Nat) (d : α), l.getD n d = d ∨ l.getD n d ∈ l
  | [], _, _ => Or.inl (by simp)
  | a :: _, 0, _ => Or.inr (by simp)
  | _ :: as, n + 1, d => by
    rcases getD_eq_or_mem as n d with h | h
    · exact Or.inl (by simpa using h)
    · exact Or.inr (by simp only [List.getD_cons_succ]; exact List.mem_cons_of_mem _ h)

theorem hexDigitChar_mem (k : Nat) : hexDigitChar k ∈ hexDigitChars := by
  unfold hexDigitChar
  rcases getD_eq_or_mem hexDigitChars (k % 16) '0' with h | h
  · rw [h]; decide
  · exact h

theorem mem_hexCharList {bs : List Nat} {c : Char}
    (hc : c ∈ bs.flatMap fun b => [hexDigitChar (b / 16), hexDigitChar b]) :
    c ∈ hexDigitChars := by
  rw [List.mem_flatMap] at hc
  obtain ⟨b, _, hb⟩ := hc
  simp only [List.mem_cons, List.not_mem_nil, or_false] at hb
  rcases hb with h | h <;> (rw [h]; exact hexDigitChar_mem _)

theorem sha256_hexdigest_chars {s : Sha256State} {c : Char}
    (hc : c ∈ (sha256_hexdigest s).data) : c ∈ hexDigitChars :=
  mem_hexCharList hc

end Sha

theorem except_isOk_ok {ε α : Type} (a : α) :
    (Except.ok a : Except ε α).isOk = true := rfl

theorem except_isOk_error {ε α : Type} (e : ε) :
    (Except.error e : Except ε α).isOk = false := rfl

/-! ## Claim theorems -/

/-- Claim C4: on a host reporting OS `darwin` and machine `arm64` (for
either pointer width), `get_platform_info` returns target triple
`aarch64-apple-darwin` with executable extension `""`, and the sidecar
binary is named `gytmdl-aarch64-apple-darwin` — the tool name, a hyphen,
the target triple, and no extension. -/
theorem macos_arm64_platform_and_binary_name :
    SidecarBuilder.get_platform_info "darwin" "arm64" true =
      .ok ⟨"macos", "aarch64", "aarch64-apple-darwin", ""⟩ ∧
    SidecarBuilder.get_platform_info "darwin" "arm64" false =
      .ok ⟨"macos", "aarch64", "aarch64-apple-darwin", ""⟩ ∧
    SidecarBuilder.binary_name ⟨"macos", "aarch64", "aarch64-apple-darwin", ""⟩ =
      "gytmdl" ++ "-" ++ "aarch64-apple-darwin" ++ "" := by
  refine ⟨rfl, rfl, by decide⟩

/-- Claim C5: for every byte sequence of a binary file, the chunked
digest of `calculate_checksum` (4096-byte reads fed to
`sha256.update`) equals the SHA-256 hex digest a single-pass reference
computation produces over the whole sequence. -/
theorem calculate_checksum_eq_single_pass (fileBytes : List Nat) :
    SidecarBuilder.calculate_checksum fileBytes =
      SidecarBuilder.reference_sha256_hex fileBytes := by
  unfold SidecarBuilder.calculate_checksum SidecarBuilder.reference_sha256_hex
  rw [Sha.chunksBy_foldl_update]
  rfl

/-- Claim C9: for a configuration path that does not exist on disk
(modelled by `none`), `load_config` returns the default configuration
with `release = true` and `code_signing.enabled = false`; such a run
signs nothing (the signing stage succeeds invoking no tool) and builds
with `--release`, so a missing configuration file never causes a
failure. -/
theorem load_config_missing_file_defaults :
    load_config none = default_config ∧
    (load_config none).release = true ∧
    (load_config none).code_signing.enabled = false ∧
    (∀ (osName : String) (winSign macSign : PackagingPipeline.SignOutcome),
        PackagingPipeline.sign_binaries (load_config none) osName winSign macSign =
          ⟨true, []⟩) ∧
    "--release" ∈ PackagingPipeline.build_tauri_cmd (load_config none) := by
  refine ⟨rfl, rfl, rfl, ?_, by decide⟩
  intro osName winSign macSign
  simp [PackagingPipeline.sign_binaries, load_config, default_config]

/-- Claim C10: `sign_binaries` returns success with no signing-tool
invocation whenever `code_signing.enabled` is false, and also whenever
the host OS is neither `windows` nor `macos` even with signing enabled;
a failing signing stage therefore implies signing was enabled and the
host OS was `windows` or `macos`. -/
theorem sign_binaries_skip_conditions (cfg : BuildConfig) (osName : String)
    (winSign macSign : PackagingPipeline.SignOutcome) :
    (cfg.code_signing.enabled = false →
      PackagingPipeline.sign_binaries cfg osName winSign macSign = ⟨true, []⟩) ∧
    (osName ≠ "windows" → osName ≠ "macos" →
      PackagingPipeline.sign_binaries cfg osName winSign macSign = ⟨true, []⟩) ∧
    ((PackagingPipeline.sign_binaries cfg osName winSign macSign).success = false →
      cfg.code_signing.enabled = true ∧ (osName = "windows" ∨ osName = "macos")) := by
  refine ⟨?_, ?_, ?_⟩
  · intro h
    simp [PackagingPipeline.sign_binaries, h]
  · intro hw hm
    by_cases he : cfg.code_signing.enabled
    · simp [PackagingPipeline.sign_binaries, he, hw, hm]
    · simp [PackagingPipeline.sign_binaries, he]
  · intro hfail
    by_cases he : cfg.code_signing.enabled
    · refine ⟨he, ?_⟩
      by_cases hw : osName = "windows"
      · exact Or.inl hw
      · by_cases hm : osName = "macos"
        · exact Or.inr hm
        · exfalso
          simp [PackagingPipeline.sign_binaries, he, hw, hm] at hfail
    · exfalso
      simp [PackagingPipeline.sign_binaries, he] at hfail

/-- Witness for C10 at a concrete input: with signing enabled on a Linux
host, `sign_binaries` succeeds without invoking a tool even though the
platform helpers would fail. -/
theorem sign_binaries_skip_conditions_witness :
    PackagingPipeline.sign_binaries
        ⟨true, ⟨true, false⟩, none⟩ "linux" ⟨false, ["signtool"]⟩ ⟨false, ["codesign"]⟩ =
      ⟨true, []⟩ :=
  (sign_binaries_skip_conditions ⟨true, ⟨true, false⟩, none⟩ "linux"
      ⟨false, ["signtool"]⟩ ⟨false, ["codesign"]⟩).2.1
    (by decide) (by decide)

/-- Claim C6: `validate_binary` runs the binary with `--version` under a
30-second timeout and succeeds exactly when that process completes with
exit code 0; an expired timeout (and likewise any other caught
exception) yields `false` rather than propagating. -/
theorem validate_binary_exit_code_and_timeout
    (run : List String → Option Nat → SidecarBuilder.RunOutcome) (path : String) :
    (∀ (rc : Int) (out err : String),
        run [path, "--version"] (some 30) = .completed rc out err →
          (SidecarBuilder.validate_binary run path = true ↔ rc = 0)) ∧
    (run [path, "--version"] (some 30) = .timeoutExpired →
        SidecarBuilder.validate_binary run path = false) ∧
    (∀ msg, run [path, "--version"] (some 30) = .osError msg →
        SidecarBuilder.validate_binary run path = false) := by
  refine ⟨?_, ?_, ?_⟩
  · intro rc out err h
    simp [SidecarBuilder.validate_binary, h]
  · intro h
    simp [SidecarBuilder.validate_binary, h]
  · intro msg h
    simp [SidecarBuilder.validate_binary, h]

/-- Witness for C6 at a concrete input: a subprocess oracle that always
times out makes `validate_binary` return failure. -/
theorem validate_binary_exit_code_and_timeout_witness :
    SidecarBuilder.validate_binary (fun _ _ => .timeoutExpired) "gytmdl-bin" = false :=
  (validate_binary_exit_code_and_timeout (fun _ _ => .timeoutExpired) "gytmdl-bin").2.1 rfl

/-- Claim C7: `check_dependencies` probes every tool of the list; each
probe failure (non-zero exit or executable not found) is recorded in
`missing_tools` and probing continues, so the returned missing list is
exactly the failing tools in order, the call fails exactly when that
list is non-empty, and every failing tool of the input appears in it. -/
theorem check_dependencies_collects_all_missing
    (probe : String → PackagingPipeline.ProbeOutcome) (tools : List String) :
    (PackagingPipeline.check_dependencies probe tools).2 =
      tools.filter (fun t => !(probe t == .success)) ∧
    ((PackagingPipeline.check_dependencies probe tools).1 = true ↔
      (PackagingPipeline.check_dependencies probe tools).2 = []) ∧
    (∀ t ∈ tools, probe t ≠ .success →
      t ∈ (PackagingPipeline.check_dependencies probe tools).2) := by
  have hfilter : ∀ ts : List String,
      PackagingPipeline.missingTools probe ts =
        ts.filter (fun t => !(probe t == .success)) := by
    intro ts
    induction ts with
    | nil => rfl
    | cons t ts ih =>
      cases hp : probe t <;>
        simp [PackagingPipeline.missingTools, List.filter_cons, hp, ih]
  refine ⟨hfilter tools, ?_, ?_⟩
  · show (PackagingPipeline.missingTools probe tools).isEmpty = true ↔
      PackagingPipeline.missingTools probe tools = []
    exact List.isEmpty_iff
  · intro t ht hfail
    show t ∈ PackagingPipeline.missingTools probe tools
    rw [hfilter tools, List.mem_filter]
    refine ⟨ht, ?_⟩
    cases hp : probe t
    · exact absurd hp hfail
    · simp
    · simp

/-- Witness for C7 at a concrete input: with `npm` and `cargo` failing
their probes, both appear in the missing list (the check did not stop at
`npm`). -/
theorem check_dependencies_collects_all_missing_witness :
    "cargo" ∈ (PackagingPipeline.check_dependencies
        (fun t => if t == "npm" || t == "cargo" then .fileNotFoundError else .success)
        PackagingPipeline.required_tools).2 :=
  (check_dependencies_collects_all_missing
      (fun t => if t == "npm" || t == "cargo" then .fileNotFoundError else .success)
      PackagingPipeline.required_tools).2.2 "cargo" (by decide) (by decide)

/-- Claim C8: the checksums file contains exactly one line per listed
installer file that exists on disk — formatted as the chunked SHA-256
hex digest, two spaces, then the file name — and no line for a listed
path that does not exist; every digest is 64 characters drawn from the
lowercase hexadecimal alphabet. -/
theorem generate_checksums_lines (files : List PackagingPipeline.InstallerFile) :
    PackagingPipeline.generate_checksums files =
      (files.filter fun f => f.existsOnDisk).map
        (fun f => SidecarBuilder.calculate_checksum f.content ++ "  " ++ f.name) ∧
    (∀ f ∈ files,
      (SidecarBuilder.calculate_checksum f.content).length = 64 ∧
      ∀ c ∈ (SidecarBuilder.calculate_checksum f.content).data,
        c ∈ Sha.hexDigitChars) := by
  constructor
  · induction files with
    | nil => rfl
    | cons f fs ih =>
      cases hf : f.existsOnDisk <;>
        simp [PackagingPipeline.generate_checksums, List.filter_cons, hf, ih,
          SidecarBuilder.calculate_checksum]
  · intro f _
    constructor
    · exact Sha.length_sha256_hexdigest _
    · intro c hc
      exact Sha.sha256_hexdigest_chars hc

/-- Witness for C8 at a concrete input: a two-element list with one
existing and one missing file produces exactly the line for the
existing one, whose digest is 64 lowercase hex characters. -/
theorem generate_checksums_lines_witness :
    PackagingPipeline.generate_checksums
        [⟨"gytmdl-gui.dmg", true, [1, 2, 3]⟩, ⟨"gytmdl-gui.msi", false, [4, 5]⟩] =
      [SidecarBuilder.calculate_checksum [1, 2, 3] ++ "  " ++ "gytmdl-gui.dmg"] ∧
    (SidecarBuilder.calculate_checksum [1, 2, 3]).length = 64 := by
  have h := generate_checksums_lines
    [⟨"gytmdl-gui.dmg", true, [1, 2, 3]⟩, ⟨"gytmdl-gui.msi", false, [4, 5]⟩]
  exact ⟨h.1, (h.2 ⟨"gytmdl-gui.dmg", true, [1, 2, 3]⟩ (by simp)).1⟩

/-- Counterexample to claim C2: the host pair (linux, riscv64) lies
outside the fixed reference table of supported pairs, yet
`get_platform_info` does not fail — it returns a degenerate record with
architecture `unknown` and the fallback triple `unknown-linux-gnu`,
which names no row of the reference table. -/
theorem get_platform_info_unknown_linux_counterexample :
    SidecarBuilder.get_platform_info "linux" "riscv64" true =
      .ok ⟨"linux", "unknown", "unknown-linux-gnu", ""⟩ ∧
    "unknown-linux-gnu" ∉ spec_reference_triples ∧
    "riscv64" ≠ "x86_64" ∧ "riscv64" ≠ "aarch64" := by
  refine ⟨rfl, by decide, by decide, by decide⟩

/-- Claim C2 (amended): `get_platform_info` is a deterministic pure
function of (system, machine, pointer width); it fails with an
unsupported-platform error exactly when the OS is none of `windows`,
`darwin`, `linux`; on the reference table's supported pairs it returns
that table's triple (with any non-`arm64` darwin machine resolving to
`x86_64-apple-darwin`); but a linux host with an unrecognized machine
returns the fallback record `(arch: unknown, target: unknown-linux-gnu)`
instead of failing. -/
theorem get_platform_info_amended :
    (∀ (system machine : String) (is64 : Bool),
        (SidecarBuilder.get_platform_info system machine is64).isOk = true ↔
          (system = "windows" ∨ system = "darwin" ∨ system = "linux")) ∧
    (∀ machine : String,
        SidecarBuilder.get_platform_info "windows" machine true =
          .ok ⟨"windows", "x86_64", "x86_64-pc-windows-msvc", ".exe"⟩ ∧
        SidecarBuilder.get_platform_info "windows" machine false =
          .ok ⟨"windows", "i686", "i686-pc-windows-msvc", ".exe"⟩) ∧
    (∀ is64 : Bool,
        SidecarBuilder.get_platform_info "darwin" "arm64" is64 =
          .ok ⟨"macos", "aarch64", "aarch64-apple-darwin", ""⟩ ∧
        SidecarBuilder.get_platform_info "linux" "x86_64" is64 =
          .ok ⟨"linux", "x86_64", "x86_64-unknown-linux-gnu", ""⟩ ∧
        SidecarBuilder.get_platform_info "linux" "aarch64" is64 =
          .ok ⟨"linux", "aarch64", "aarch64-unknown-linux-gnu", ""⟩) ∧
    (∀ (machine : String) (is64 : Bool), machine ≠ "arm64" →
        SidecarBuilder.get_platform_info "darwin" machine is64 =
          .ok ⟨"macos", "x86_64", "x86_64-apple-darwin", ""⟩) ∧
    (∀ (machine : String) (is64 : Bool),
        machine ≠ "x86_64" → machine ≠ "aarch64" →
          SidecarBuilder.get_platform_info "linux" machine is64 =
            .ok ⟨"linux", "unknown", "unknown-linux-gnu", ""⟩) := by
  refine ⟨?_, ?_, ?_, ?_, ?_⟩
  · intro system machine is64
    by_cases hw : system = "windows"
    · subst hw
      cases is64 <;> simp [SidecarBuilder.get_platform_info, except_isOk_ok]
    · by_cases hd : system = "darwin"
      · subst hd
        by_cases hm : machine = "arm64" <;>
          simp [SidecarBuilder.get_platform_info, hm, except_isOk_ok]
      · by_cases hl : system = "linux"
        · subst hl
          by_cases hm : machine = "x86_64"
          · simp [SidecarBuilder.get_platform_info, hm, except_isOk_ok]
          · by_cases hm2 : machine = "aarch64" <;>
              simp [SidecarBuilder.get_platform_info, hm, hm2, except_isOk_ok]
        · simp [SidecarBuilder.get_platform_info, hw, hd, hl, except_isOk_error]
  · intro machine
    exact ⟨rfl, rfl⟩
  · intro is64
    exact ⟨rfl, rfl, rfl⟩
  · intro machine is64 hm
    simp [SidecarBuilder.get_platform_info, hm]
  · intro machine is64 hm1 hm2
    simp [SidecarBuilder.get_platform_info, hm1, hm2]

/-- Witness for the amended C2 at concrete inputs: an unknown OS fails,
and a linux host with machine `riscv64` gets the fallback record. -/
theorem get_platform_info_amended_witness :
    ((SidecarBuilder.get_platform_info "freebsd" "x86_64" true).isOk = true ↔
      ("freebsd" = "windows" ∨ "freebsd" = "darwin" ∨ "freebsd" = "linux")) ∧
    SidecarBuilder.get_platform_info "linux" "riscv64" false =
      .ok ⟨"linux", "unknown", "unknown-linux-gnu", ""⟩ :=
  ⟨(get_platform_info_amended.1 "freebsd" "x86_64" true),
   get_platform_info_amended.2.2.2.2 "riscv64" false (by decide) (by decide)⟩

/-- Counterexample to claim C3: with the current platform resolving to
`aarch64-apple-darwin` (a target of the script's table),
`create_mock_sidecars` produces one placeholder file and one manifest
for the current platform as well — the manifest still flagged
`is_mock: True` — rather than the zero the claim requires. -/
theorem create_mock_sidecars_current_counterexample :
    (MockSidecars.create_mock_sidecars (some "aarch64-apple-darwin")).filter
        (fun a => a.isCurrentPlatform && a.is_mock) =
      [⟨"gytmdl-aarch64-apple-darwin", "gytmdl-aarch64-apple-darwin.json",
        "aarch64-apple-darwin", true, true, 0⟩] := by
  decide

/-- Claim C3 (amended): every run of `create_mock_sidecars` produces
exactly one placeholder file and exactly one manifest per target
platform of its six-entry table — including the current platform, which
receives a mock as well (manifest flagged `is_mock: True`), though its
script exits 0 and handles the version flag while non-current platforms
get an exit-1 placeholder. -/
theorem create_mock_sidecars_amended (currentTarget : Option String) :
    (MockSidecars.create_mock_sidecars currentTarget).map
        (fun a => (a.binaryName, a.manifestName)) =
      [("gytmdl-x86_64-pc-windows-msvc.exe", "gytmdl-x86_64-pc-windows-msvc.exe.json"),
       ("gytmdl-i686-pc-windows-msvc.exe", "gytmdl-i686-pc-windows-msvc.exe.json"),
       ("gytmdl-x86_64-apple-darwin", "gytmdl-x86_64-apple-darwin.json"),
       ("gytmdl-aarch64-apple-darwin", "gytmdl-aarch64-apple-darwin.json"),
       ("gytmdl-x86_64-unknown-linux-gnu", "gytmdl-x86_64-unknown-linux-gnu.json"),
       ("gytmdl-aarch64-unknown-linux-gnu", "gytmdl-aarch64-unknown-linux-gnu.json")] ∧
    ∀ a ∈ MockSidecars.create_mock_sidecars currentTarget,
      a.is_mock = true ∧
      a.isCurrentPlatform = (some a.target == currentTarget) ∧
      a.scriptExitCode = (if some a.target == currentTarget then 0 else 1) := by
  constructor
  · rfl
  · intro a ha
    simp only [MockSidecars.create_mock_sidecars, MockSidecars.platforms,
      List.map_cons, List.map_nil, List.mem_cons, List.not_mem_nil,
      or_false] at ha
    rcases ha with h | h | h | h | h | h <;> (subst h; exact ⟨rfl, rfl, rfl⟩)

/-- Witness for the amended C3 at a concrete input: on a linux x86_64
host, the artifact for the current platform is itself flagged as a mock
with exit code 0. -/
theorem create_mock_sidecars_amended_witness :
    (⟨"gytmdl-x86_64-unknown-linux-gnu", "gytmdl-x86_64-unknown-linux-gnu.json",
        "x86_64-unknown-linux-gnu", true, true, 0⟩ :
      MockSidecars.MockArtifact).is_mock = true :=
  ((create_mock_sidecars_amended (some "x86_64-unknown-linux-gnu")).2
    ⟨"gytmdl-x86_64-unknown-linux-gnu", "gytmdl-x86_64-unknown-linux-gnu.json",
      "x86_64-unknown-linux-gnu", true, true, 0⟩ (by decide)).1

/-- Claim C1: `run_full_pipeline` only ever invokes its stages as an
initial segment of the fixed order (dependency check, sidecar build,
frontend build, Tauri app build, signing, installer creation, checksum
generation); whenever some stage returns failure, the run returns
failure reporting that stage's name and invokes nothing after the first
failing stage. -/
theorem run_full_pipeline_stops_at_first_failure
    (o : PackagingPipeline.StageOutcomes) :
    (PackagingPipeline.run_full_pipeline o).invoked =
      PackagingPipeline.pipelineStageOrder.take
        (PackagingPipeline.run_full_pipeline o).invoked.length ∧
    ∀ k, PackagingPipeline.firstFailIdx o = some k →
      (PackagingPipeline.run_full_pipeline o).success = false ∧
      (PackagingPipeline.run_full_pipeline o).failedStep =
        some (PackagingPipeline.pipelineStageOrder.getD k "") ∧
      (PackagingPipeline.run_full_pipeline o).invoked =
        PackagingPipeline.pipelineStageOrder.take (k + 1) := by
  obtain ⟨d, s, fr, t, g, ins⟩ := o
  rcases hins : ins.isEmpty with _ | _ <;>
    cases d <;> cases s <;> cases fr <;> cases t <;> cases g <;>
      simp [PackagingPipeline.run_full_pipeline, PackagingPipeline.runSteps,
        PackagingPipeline.step_list, PackagingPipeline.firstFailIdx,
        PackagingPipeline.idxOfFalse, PackagingPipeline.boolStageResults,
        PackagingPipeline.pipelineStageOrder, hins]

/-- Witness for C1 at a concrete input: a run whose frontend build fails
reports `Build frontend` as the failing step and invokes only the first
three stages. -/
theorem run_full_pipeline_stops_at_first_failure_witness :
    (PackagingPipeline.run_full_pipeline ⟨true, true, false, true, true, []⟩).success
        = false ∧
    (PackagingPipeline.run_full_pipeline ⟨true, true, false, true, true, []⟩).failedStep
        = some (PackagingPipeline.pipelineStageOrder.getD 2 "") ∧
    (PackagingPipeline.run_full_pipeline ⟨true, true, false, true, true, []⟩).invoked
        = PackagingPipeline.pipelineStageOrder.take 3 :=
  (run_full_pipeline_stops_at_first_failure ⟨true, true, false, true, true, []⟩).2
    2 (by decide)

end Gytmdl
